import Mathlib

/-!
# OpenPLC node (src/OpenPLC/OpenPLC.js)

A shallow embedding of the OpenPLC Node-RED node: the closure variables
`timerID` and `timeoutOccurred` together with a record of every call the node
makes to its collaborators (`node.status`, `node.send`, `modbusClient.emit`,
`setInterval`, `clearInterval`), and one function per handler of the source.
-/

namespace OpenPLC

/-! ## Data -/

/-- A JavaScript scalar as it travels in a payload: a coil value, a register
value, a written value, or `null`. -/
inductive Scalar where
  | null
  | bool (b : Bool)
  | num (n : Int)
  | str (s : String)
  deriving DecidableEq, Repr

/-- The object `{ payload: x }` built by the read-completion handlers. -/
structure OutputEvent where
  payload : Scalar
  deriving DecidableEq, Repr

/-- The array handed to `node.send`: each entry is either an object
`{ payload: x }` (`some`) or the JavaScript value `null` (`none`). -/
abbrev Batch := List (Option OutputEvent)

/-- The configuration fields of the node that the handlers read. -/
structure Config where
  name : String
  digitaloutputs : Int
  analogoutputs : Int
  digitaloutputoffset : Int
  analogoutputoffset : Int
  deriving DecidableEq, Repr

/-- The `payload` object of a read message built by `modbusPollingRead`. -/
structure ReadPayload where
  unitid : Nat
  fc : Nat
  address : Int
  quantity : Int
  deriving DecidableEq, Repr

/-- The message object of a read request (`from` is spelled `fromName`). -/
structure ReadMsg where
  topic : String
  fromName : String
  payload : ReadPayload
  deriving DecidableEq, Repr

/-- The `payload` object that the input handler puts in place of the incoming one. -/
structure WritePayload where
  value : Scalar
  unitid : Nat
  fc : Nat
  address : Int
  quantity : Nat
  deriving DecidableEq, Repr

/-- The `payload` of an incoming command message: `register`, `byte`, `bit`, `value`.
The numeric fields are integers. -/
structure InputPayload where
  register : String
  byte : Int
  bit : Int
  value : Scalar
  deriving DecidableEq, Repr

/-- An incoming message; `payload` is `none` when the message has no such property. -/
structure InputMsg where
  payload : Option InputPayload
  deriving DecidableEq, Repr

/-- Which completion callback a read request was registered with. -/
inductive ReadKind where
  | digital
  | analog
  deriving DecidableEq, Repr

/-- One call of `modbusClient.emit`. -/
inductive Emitted where
  | readModbus (msg : ReadMsg) (done : ReadKind)
  | writeModbus (payload : WritePayload)
  | reconnect
  deriving DecidableEq, Repr

/-- An error value passed to the error callbacks: its `message` property and
the text `JSON.stringify` yields for the whole value. -/
structure ModbusError where
  message : String
  json : String
  deriving DecidableEq, Repr

/-- The node: the two closure variables of the source, the interval timers the
runtime holds for it, and the calls made so far (oldest first). `statusLog`
records the `statusValue` of each `node.status` call; the record shown is
computed from that value alone by the Modbus library. -/
structure Node where
  timerID : Option Nat
  timeoutOccurred : Bool
  intervals : List Nat
  nextHandle : Nat
  statusLog : List String
  sent : List Batch
  emitted : List Emitted
  deriving DecidableEq, Repr

/-- The status most recently shown, if any. -/
def Node.status (s : Node) : Option String := s.statusLog.getLast?

/-! ## Runtime primitives -/

/-- The call `clearInterval(id)`: disarms the timer with that handle; `null` disarms nothing. -/
def clearInterval (s : Node) (id : Option Nat) : Node :=
  match id with
  | none => s
  | some h => { s with intervals := s.intervals.filter (fun t => t != h) }

/-- The call `setInterval(node.modbusPollingRead, period)`: arms a timer under a fresh handle. -/
def setInterval (s : Node) : Node × Nat :=
  ({ s with intervals := s.intervals ++ [s.nextHandle], nextHandle := s.nextHandle + 1 },
    s.nextHandle)

/-- The test `text.search(pattern) !== -1` for a pattern without special
characters: the pattern occurs somewhere in the text. -/
def searchFound (pattern text : String) : Bool :=
  text.data.tails.any (fun t => pattern.data.isPrefixOf t)

/-- The call `arr.slice(0, stop)`: a negative `stop` counts from the end. -/
def slice0 {α : Type} (arr : List α) (stop : Int) : List α :=
  if stop < 0 then arr.take ((arr.length : Int) + stop).toNat
  else arr.take stop.toNat

/-- The loop `for (i = 0; i < n; i++) arr.unshift(null)`, entered with the counter at `i`. -/
def unshiftNulls (n : Int) (i : Int) (arr : Batch) : Batch :=
  if i < n then unshiftNulls n (i + 1) (none :: arr) else arr
termination_by (n - i).toNat
decreasing_by omega

/-- The call `node.send(arr)`. -/
def send (s : Node) (arr : Batch) : Node :=
  { s with sent := s.sent ++ [arr] }

/-- One call `modbusClient.emit(...)`. -/
def emit (s : Node) (e : Emitted) : Node :=
  { s with emitted := s.emitted ++ [e] }

/-! ## Status and error classification -/

/-- The function `setNodeStatusTo` of the source. -/
def setNodeStatusTo (s : Node) (statusValue : String) : Node :=
  if statusValue == "polling" && s.timeoutOccurred then s
  else
    let s1 : Node :=
      if searchFound "active" statusValue || statusValue == "polling" then
        { s with timeoutOccurred := false }
      else s
    { s1 with statusLog := s1.statusLog ++ [statusValue] }

/-- The function `setModbusError` of the source (its unused `msg` argument is
left out); `none` is an absent error. Returns the node and `working`. -/
def setModbusError (s : Node) (err : Option ModbusError) : Node × Bool :=
  match err with
  | none => (s, false)
  | some e =>
    if e.message == "Timed out" then
      (setNodeStatusTo { s with timeoutOccurred := true } "timeout", true)
    else if e.message == "FSM Not Ready To Read" then
      (setNodeStatusTo s "not ready to read", true)
    else if e.message == "Port Not Open" then
      (emit (setNodeStatusTo s "reconnect") Emitted.reconnect, true)
    else
      (setNodeStatusTo s ("error: " ++ e.json), false)

/-! ## Handlers -/

/-- The node right after construction: both variables at their initial value
and `setNodeStatusTo('waiting')` done. -/
def construct : Node :=
  setNodeStatusTo
    { timerID := none, timeoutOccurred := false, intervals := [], nextHandle := 0,
      statusLog := [], sent := [], emitted := [] }
    "waiting"

def onModbusInit (s : Node) : Node :=
  setNodeStatusTo s "initialize"

def onModbusConnect (s : Node) : Node :=
  let s1 := clearInterval s s.timerID
  let r := setInterval s1
  setNodeStatusTo { r.1 with timerID := some r.2 } "connected"

def onModbusActive (s : Node) : Node :=
  setNodeStatusTo s "active"

def onModbusError (s : Node) : Node :=
  let s1 := setNodeStatusTo s "failure"
  let s2 := clearInterval s1 s1.timerID
  { s2 with timerID := none }

def onModbusClose (s : Node) : Node :=
  let s1 := setNodeStatusTo s "closed"
  let s2 := clearInterval s1 s1.timerID
  { s2 with timerID := none }

/-- The handler of `input`; `client` is the truth value of `modbusClient.client`. -/
def onInput (s : Node) (client : Bool) (msg : InputMsg) : Node :=
  match msg.payload with
  | none => s
  | some p =>
    if !((p.register != "" && p.register == "X") || p.register == "W") then s
    else if !client then s
    else if p.byte < 0 || p.byte > 99 then s
    else if p.bit < 0 || p.bit > 7 then s
    else
      let fc : Nat := if p.register == "X" then 5 else 6
      let address : Int := if p.register == "X" then p.byte * 8 + p.bit else p.byte
      emit s (Emitted.writeModbus
        { value := p.value, unitid := 1, fc := fc, address := address, quantity := 1 })

/-- The timer callback; `client` is the truth value of `modbusClient.client`. -/
def modbusPollingRead (cfg : Config) (s : Node) (client : Bool) : Node :=
  if !client then setNodeStatusTo s "waiting"
  else
    let s1 : Node :=
      if cfg.digitaloutputs > 0 then
        emit s (Emitted.readModbus
          { topic := "polling", fromName := cfg.name,
            payload := { unitid := 1, fc := 1, address := cfg.digitaloutputoffset,
                         quantity := cfg.digitaloutputs } }
          ReadKind.digital)
      else s
    if cfg.analogoutputs > 0 then
      emit s1 (Emitted.readModbus
        { topic := "polling", fromName := cfg.name,
          payload := { unitid := 1, fc := 3, address := cfg.analogoutputoffset,
                       quantity := cfg.analogoutputs } }
        ReadKind.analog)
    else s1

/-- The array sent by `onModbusReadDoneDigital` for `response.data = data`. -/
def digitalBatch (cfg : Config) (data : List Scalar) : Batch :=
  slice0 (data.map (fun x => some { payload := x })) cfg.digitaloutputs

/-- The array sent by `onModbusReadDoneAnalog` for `response.data = data`. -/
def analogBatch (cfg : Config) (data : List Scalar) : Batch :=
  unshiftNulls cfg.digitaloutputs 0 (data.map (fun x => some { payload := x }))

def onModbusReadDoneDigital (cfg : Config) (s : Node) (data : List Scalar) : Node :=
  send s (digitalBatch cfg data)

def onModbusReadDoneAnalog (cfg : Config) (s : Node) (data : List Scalar) : Node :=
  send s (analogBatch cfg data)

def onModbusReadError (s : Node) (err : Option ModbusError) : Node :=
  (setModbusError s err).1

def onModbusWriteError (s : Node) (err : Option ModbusError) : Node :=
  (setModbusError s err).1

/-- The handler of the node's own `close`. -/
def onClose (s : Node) : Node :=
  let s1 := clearInterval s s.timerID
  setNodeStatusTo { s1 with timerID := none } "closed"

/-! ## The input handler on untyped fields

The handler of `input` reads `byte` and `bit` from the message without looking
at their type. `onInput` above is the handler on messages in which both are
integers; here the two fields may also be absent or `NaN`. -/

/-- The value of the `byte` or `bit` property of an incoming payload: absent
(`undefined`), an integer number, or the number `NaN`. -/
inductive JsValue where
  | undefined
  | int (n : Int)
  | nan
  deriving DecidableEq, Repr

/-- The conversion `ToNumber` that comparison and arithmetic apply to an
operand; `none` is `NaN`, which `undefined` converts to. -/
def JsValue.toNumber : JsValue → Option Int
  | JsValue.int n => some n
  | JsValue.undefined => none
  | JsValue.nan => none

/-- The comparison `v < k` with a number `k`: false when `v` converts to `NaN`. -/
def JsValue.lt (v : JsValue) (k : Int) : Bool :=
  match v.toNumber with
  | some n => decide (n < k)
  | none => false

/-- The comparison `v > k` with a number `k`: false when `v` converts to `NaN`. -/
def JsValue.gt (v : JsValue) (k : Int) : Bool :=
  match v.toNumber with
  | some n => decide (n > k)
  | none => false

/-- The product `v * k` with a number `k`. -/
def JsValue.mul (v : JsValue) (k : Int) : JsValue :=
  match v.toNumber with
  | some n => JsValue.int (n * k)
  | none => JsValue.nan

/-- The sum `a + b` of two values neither of which is a string. -/
def JsValue.add (a b : JsValue) : JsValue :=
  match a.toNumber, b.toNumber with
  | some x, some y => JsValue.int (x + y)
  | _, _ => JsValue.nan

/-- The `payload` of an incoming command message with untyped `byte` and `bit`. -/
structure UntypedPayload where
  register : String
  byte : JsValue
  bit : JsValue
  value : Scalar
  deriving DecidableEq, Repr

/-- The `payload` object of the write request, with the address as computed. -/
structure UntypedWritePayload where
  value : Scalar
  unitid : Nat
  fc : Nat
  address : JsValue
  quantity : Nat
  deriving DecidableEq, Repr

/-- The handler of `input` on an untyped payload: the payload of the
`writeModbus` request it emits, or `none` when it returns without emitting.
`client` is the truth value of `modbusClient.client`; the handler touches
nothing else of the node. -/
def onInputUntyped (client : Bool) (payload : Option UntypedPayload) :
    Option UntypedWritePayload :=
  match payload with
  | none => none
  | some p =>
    if !((p.register != "" && p.register == "X") || p.register == "W") then none
    else if !client then none
    else if p.byte.lt 0 || p.byte.gt 99 then none
    else if p.bit.lt 0 || p.bit.gt 7 then none
    else
      let fc : Nat := if p.register == "X" then 5 else 6
      let address : JsValue :=
        if p.register == "X" then (p.byte.mul 8).add p.bit else p.byte
      some { value := p.value, unitid := 1, fc := fc, address := address, quantity := 1 }

/-! ## Events -/

/-- What can happen to the node: the five adapter lifecycle events (the detail
that comes with `mberror` is not a parameter of its handler), an incoming
message, a firing of the interval timer with handle `handle`, the completion
callbacks of a read or write, and the node's own `close`. -/
inductive Event where
  | mbinit
  | mbconnected
  | mbactive
  | mberror (detail : String)
  | mbclosed
  | input (client : Bool) (msg : InputMsg)
  | tick (handle : Nat) (client : Bool)
  | readDoneDigital (data : List Scalar)
  | readDoneAnalog (data : List Scalar)
  | readError (err : Option ModbusError)
  | writeError (err : Option ModbusError)
  | close
  deriving DecidableEq, Repr

/-- The handler that runs for an event; a timer fires only while it is armed. -/
def step (cfg : Config) (s : Node) : Event → Node
  | Event.mbinit => onModbusInit s
  | Event.mbconnected => onModbusConnect s
  | Event.mbactive => onModbusActive s
  | Event.mberror _ => onModbusError s
  | Event.mbclosed => onModbusClose s
  | Event.input client msg => onInput s client msg
  | Event.tick handle client =>
    if s.intervals.contains handle then modbusPollingRead cfg s client else s
  | Event.readDoneDigital data => onModbusReadDoneDigital cfg s data
  | Event.readDoneAnalog data => onModbusReadDoneAnalog cfg s data
  | Event.readError err => onModbusReadError s err
  | Event.writeError err => onModbusWriteError s err
  | Event.close => onClose s

/-- The node after a finite sequence of events. -/
def run (cfg : Config) (s : Node) (events : List Event) : Node :=
  events.foldl (step cfg) s

/-! ## Timers and requests -/

/-- At most one timer: the timers the runtime holds armed for the node are
exactly the one whose handle is in `timerID`, and none when `timerID` is `null`. -/
def Node.oneTimer (s : Node) : Prop := s.intervals = s.timerID.toList

instance (s : Node) : Decidable s.oneTimer :=
  inferInstanceAs (Decidable (s.intervals = s.timerID.toList))

/-- A timer is armed: `timerID` holds a handle that the runtime has armed. -/
def Node.armed (s : Node) : Bool :=
  match s.timerID with
  | none => false
  | some h => s.intervals.contains h

/-- The emitted call is a read request. -/
def Emitted.isRead : Emitted → Bool
  | Emitted.readModbus _ _ => true
  | _ => false

/-- The read requests emitted so far, oldest first. -/
def Node.readRequests (s : Node) : List Emitted := s.emitted.filter Emitted.isRead

/-! ## Helper lemmas -/

theorem unshiftNulls_eq (n i : Int) (arr : Batch) :
    unshiftNulls n i arr = List.replicate (n - i).toNat none ++ arr := by
  generalize hk : (n - i).toNat = k
  induction k generalizing i arr with
  | zero =>
    rw [unshiftNulls, if_neg (by omega)]
    simp
  | succ k ih =>
    rw [unshiftNulls, if_pos (by omega), ih (i + 1) (none :: arr) (by omega)]
    rw [List.replicate_succ', List.append_assoc]
    rfl

theorem analogBatch_eq (cfg : Config) (data : List Scalar) :
    analogBatch cfg data =
      List.replicate cfg.digitaloutputs.toNat none ++
        data.map (fun x => some { payload := x }) := by
  simp [analogBatch, unshiftNulls_eq]

theorem digitalBatch_eq (cfg : Config) (data : List Scalar)
    (h : 0 ≤ cfg.digitaloutputs) :
    digitalBatch cfg data =
      (data.map (fun x => some { payload := x })).take cfg.digitaloutputs.toNat := by
  simp [digitalBatch, slice0, not_lt.mpr h]

theorem setNodeStatusTo_polling_latched (s : Node) (h : s.timeoutOccurred = true) :
    setNodeStatusTo s "polling" = s := by
  simp [setNodeStatusTo, h]

theorem setNodeStatusTo_emitted (s : Node) (v : String) :
    (setNodeStatusTo s v).emitted = s.emitted := by
  unfold setNodeStatusTo
  split
  · rfl
  · split <;> rfl

theorem setNodeStatusTo_timerID (s : Node) (v : String) :
    (setNodeStatusTo s v).timerID = s.timerID := by
  unfold setNodeStatusTo
  split
  · rfl
  · split <;> rfl

theorem setNodeStatusTo_intervals (s : Node) (v : String) :
    (setNodeStatusTo s v).intervals = s.intervals := by
  unfold setNodeStatusTo
  split
  · rfl
  · split <;> rfl

theorem setNodeStatusTo_sent (s : Node) (v : String) :
    (setNodeStatusTo s v).sent = s.sent := by
  unfold setNodeStatusTo
  split
  · rfl
  · split <;> rfl

/-- A status value that is not 'polling' and does not contain 'active' is
shown and changes nothing else. -/
theorem setNodeStatusTo_plain (s : Node) (v : String) (hp : v ≠ "polling")
    (ha : searchFound "active" v = false) :
    setNodeStatusTo s v = { s with statusLog := s.statusLog ++ [v] } := by
  simp [setNodeStatusTo, hp, ha]

/-- A status value that contains 'active' is shown and clears the latch. -/
theorem setNodeStatusTo_active (s : Node) (v : String) (hp : v ≠ "polling")
    (ha : searchFound "active" v = true) :
    setNodeStatusTo s v =
      { s with timeoutOccurred := false, statusLog := s.statusLog ++ [v] } := by
  simp [setNodeStatusTo, hp, ha]

theorem status_after_append (s : Node) (v : String) :
    Node.status { s with statusLog := s.statusLog ++ [v] } = some v := by
  simp [Node.status]

theorem setNodeStatusTo_statusLog_plain (s : Node) (v : String) (hp : v ≠ "polling") :
    (setNodeStatusTo s v).statusLog = s.statusLog ++ [v] := by
  unfold setNodeStatusTo
  rw [if_neg (by simp [hp])]
  split <;> rfl

theorem setNodeStatusTo_status_plain (s : Node) (v : String) (hp : v ≠ "polling") :
    (setNodeStatusTo s v).status = some v := by
  simp [Node.status, setNodeStatusTo_statusLog_plain s v hp]

theorem setModbusError_timerID (s : Node) (err : Option ModbusError) :
    (setModbusError s err).1.timerID = s.timerID := by
  unfold setModbusError
  cases err with
  | none => rfl
  | some e =>
    simp only []
    split_ifs <;> simp [emit, setNodeStatusTo_timerID]

theorem setModbusError_intervals (s : Node) (err : Option ModbusError) :
    (setModbusError s err).1.intervals = s.intervals := by
  unfold setModbusError
  cases err with
  | none => rfl
  | some e =>
    simp only []
    split_ifs <;> simp [emit, setNodeStatusTo_intervals]

theorem setModbusError_readRequests (s : Node) (err : Option ModbusError) :
    (setModbusError s err).1.readRequests = s.readRequests := by
  unfold setModbusError
  cases err with
  | none => rfl
  | some e =>
    simp only []
    split_ifs <;> simp [emit, Node.readRequests, setNodeStatusTo_emitted, Emitted.isRead]

theorem onInput_frame (s : Node) (client : Bool) (msg : InputMsg) :
    (onInput s client msg).timerID = s.timerID ∧
      (onInput s client msg).intervals = s.intervals ∧
      (onInput s client msg).statusLog = s.statusLog ∧
      (onInput s client msg).timeoutOccurred = s.timeoutOccurred ∧
      (onInput s client msg).readRequests = s.readRequests := by
  unfold onInput
  cases msg.payload with
  | none => exact ⟨rfl, rfl, rfl, rfl, rfl⟩
  | some p =>
    simp only []
    split_ifs <;> simp [emit, Node.readRequests, Emitted.isRead]

theorem modbusPollingRead_timerID (cfg : Config) (s : Node) (client : Bool) :
    (modbusPollingRead cfg s client).timerID = s.timerID := by
  unfold modbusPollingRead
  split_ifs <;> simp [emit, setNodeStatusTo_timerID]

theorem modbusPollingRead_intervals (cfg : Config) (s : Node) (client : Bool) :
    (modbusPollingRead cfg s client).intervals = s.intervals := by
  unfold modbusPollingRead
  split_ifs <;> simp [emit, setNodeStatusTo_intervals]

theorem clearInterval_timerID (s : Node) (id : Option Nat) :
    (clearInterval s id).timerID = s.timerID := by
  cases id <;> rfl

/-- Clearing the timer held in `timerID` of a node with at most one timer
leaves no timer armed. -/
theorem clearInterval_oneTimer (s : Node) (h : s.oneTimer) :
    (clearInterval s s.timerID).intervals = [] := by
  unfold Node.oneTimer at h
  cases ht : s.timerID with
  | none => simp [clearInterval, h, ht]
  | some t => simp [clearInterval, h, ht]

/-- Every handler keeps the at-most-one-timer invariant. -/
theorem step_oneTimer (cfg : Config) (s : Node) (e : Event) (h : s.oneTimer) :
    (step cfg s e).oneTimer := by
  have hs : ∀ v, (setNodeStatusTo s v).oneTimer := by
    intro v
    simp only [Node.oneTimer, setNodeStatusTo_intervals, setNodeStatusTo_timerID]
    exact h
  have hc : ∀ v, (clearInterval (setNodeStatusTo s v) (setNodeStatusTo s v).timerID).intervals
      = [] := fun v => clearInterval_oneTimer _ (hs v)
  cases e with
  | mbinit => exact hs _
  | mbconnected =>
    simp only [step, onModbusConnect, Node.oneTimer, setNodeStatusTo_intervals,
      setNodeStatusTo_timerID, setInterval, clearInterval_oneTimer s h]
    rfl
  | mbactive => exact hs _
  | mberror d =>
    simp only [step, onModbusError, Node.oneTimer, hc]
    rfl
  | mbclosed =>
    simp only [step, onModbusClose, Node.oneTimer, hc]
    rfl
  | input client msg =>
    simp only [step, Node.oneTimer, (onInput_frame s client msg).1,
      (onInput_frame s client msg).2.1]
    exact h
  | tick handle client =>
    simp only [step]
    split
    · simp only [Node.oneTimer, modbusPollingRead_intervals, modbusPollingRead_timerID]
      exact h
    · exact h
  | readDoneDigital data => exact h
  | readDoneAnalog data => exact h
  | readError err =>
    simp only [step, onModbusReadError, Node.oneTimer, setModbusError_intervals,
      setModbusError_timerID]
    exact h
  | writeError err =>
    simp only [step, onModbusWriteError, Node.oneTimer, setModbusError_intervals,
      setModbusError_timerID]
    exact h
  | close =>
    simp only [step, onClose, Node.oneTimer, setNodeStatusTo_intervals,
      setNodeStatusTo_timerID, clearInterval_oneTimer s h]
    rfl

theorem run_oneTimer (cfg : Config) (events : List Event) (s : Node) (h : s.oneTimer) :
    (run cfg s events).oneTimer := by
  induction events generalizing s with
  | nil => exact h
  | cons e es ih => exact ih (step cfg s e) (step_oneTimer cfg s e h)

theorem construct_oneTimer : construct.oneTimer := by decide

theorem run_append (cfg : Config) (s : Node) (xs ys : List Event) :
    run cfg s (xs ++ ys) = run cfg (run cfg s xs) ys := by
  simp [run, List.foldl_append]

theorem setNodeStatusTo_readRequests (s : Node) (v : String) :
    (setNodeStatusTo s v).readRequests = s.readRequests := by
  simp [Node.readRequests, setNodeStatusTo_emitted]

theorem setNodeStatusTo_timeoutOccurred_plain (s : Node) (v : String) (hp : v ≠ "polling")
    (ha : searchFound "active" v = false) :
    (setNodeStatusTo s v).timeoutOccurred = s.timeoutOccurred := by
  rw [setNodeStatusTo_plain s v hp ha]

/-- What the adapter's 'closed' event leaves behind, field by field. -/
theorem onModbusClose_fields (s : Node) :
    (onModbusClose s).timerID = none ∧
      (onModbusClose s).intervals = (clearInterval s s.timerID).intervals ∧
      (onModbusClose s).timeoutOccurred = s.timeoutOccurred ∧
      (onModbusClose s).status = some "closed" ∧
      (onModbusClose s).readRequests = s.readRequests := by
  simp only [onModbusClose]
  rw [setNodeStatusTo_plain s "closed" (by decide) (by decide)]
  cases s.timerID <;> simp [clearInterval, Node.status, Node.readRequests]

/-- What the node's own `close` leaves behind, field by field. -/
theorem onClose_fields (s : Node) :
    (onClose s).timerID = none ∧
      (onClose s).intervals = (clearInterval s s.timerID).intervals ∧
      (onClose s).timeoutOccurred = s.timeoutOccurred ∧
      (onClose s).status = some "closed" ∧
      (onClose s).readRequests = s.readRequests := by
  simp only [onClose]
  rw [setNodeStatusTo_plain _ "closed" (by decide) (by decide)]
  cases s.timerID <;> simp [clearInterval, Node.status, Node.readRequests]

/-- What the adapter's 'error' event leaves behind, field by field. -/
theorem onModbusError_fields (s : Node) :
    (onModbusError s).timerID = none ∧
      (onModbusError s).intervals = (clearInterval s s.timerID).intervals ∧
      (onModbusError s).timeoutOccurred = s.timeoutOccurred ∧
      (onModbusError s).status = some "failure" ∧
      (onModbusError s).emitted = s.emitted ∧
      (onModbusError s).statusLog = s.statusLog ++ ["failure"] := by
  simp only [onModbusError]
  rw [setNodeStatusTo_plain s "failure" (by decide) (by decide)]
  cases s.timerID <;> simp [clearInterval, Node.status]

/-- With no timer armed, every event but 'connected' leaves no timer armed and
issues no read request. -/
theorem step_stopped (cfg : Config) (s : Node) (e : Event)
    (ht : s.timerID = none) (hi : s.intervals = []) (he : e ≠ Event.mbconnected) :
    (step cfg s e).timerID = none ∧ (step cfg s e).intervals = [] ∧
      (step cfg s e).readRequests = s.readRequests := by
  have hclr : (clearInterval s s.timerID).intervals = [] := by rw [ht]; exact hi
  cases e with
  | mbinit =>
    exact ⟨by simp [step, onModbusInit, setNodeStatusTo_timerID, ht],
      by simp [step, onModbusInit, setNodeStatusTo_intervals, hi],
      setNodeStatusTo_readRequests _ _⟩
  | mbconnected => exact absurd rfl he
  | mbactive =>
    exact ⟨by simp [step, onModbusActive, setNodeStatusTo_timerID, ht],
      by simp [step, onModbusActive, setNodeStatusTo_intervals, hi],
      setNodeStatusTo_readRequests _ _⟩
  | mberror d =>
    have h := onModbusError_fields s
    exact ⟨h.1, by rw [step, h.2.1, hclr], by simp [step, Node.readRequests, h.2.2.2.2.1]⟩
  | mbclosed =>
    have h := onModbusClose_fields s
    exact ⟨h.1, by rw [step, h.2.1, hclr], h.2.2.2.2⟩
  | input client msg =>
    have h := onInput_frame s client msg
    exact ⟨by rw [step, h.1, ht], by rw [step, h.2.1, hi], h.2.2.2.2⟩
  | tick handle client =>
    simp [step, hi, ht]
  | readDoneDigital data => exact ⟨ht, hi, rfl⟩
  | readDoneAnalog data => exact ⟨ht, hi, rfl⟩
  | readError err =>
    exact ⟨by rw [step, onModbusReadError, setModbusError_timerID, ht],
      by rw [step, onModbusReadError, setModbusError_intervals, hi],
      setModbusError_readRequests _ _⟩
  | writeError err =>
    exact ⟨by rw [step, onModbusWriteError, setModbusError_timerID, ht],
      by rw [step, onModbusWriteError, setModbusError_intervals, hi],
      setModbusError_readRequests _ _⟩
  | close =>
    have h := onClose_fields s
    exact ⟨h.1, by rw [step, h.2.1, hclr], h.2.2.2.2⟩

theorem run_stopped (cfg : Config) (events : List Event) (s : Node)
    (ht : s.timerID = none) (hi : s.intervals = []) (he : Event.mbconnected ∉ events) :
    (run cfg s events).timerID = none ∧ (run cfg s events).intervals = [] ∧
      (run cfg s events).readRequests = s.readRequests := by
  induction events generalizing s with
  | nil => exact ⟨ht, hi, rfl⟩
  | cons e es ih =>
    have h1 := step_stopped cfg s e ht hi (fun hc => he (by simp [hc]))
    have h2 := ih (step cfg s e) h1.1 h1.2.1 (fun hc => he (List.mem_cons_of_mem _ hc))
    exact ⟨h2.1, h2.2.1, h2.2.2.trans h1.2.2⟩

theorem armed_congr (s t : Node) (h1 : t.timerID = s.timerID)
    (h2 : t.intervals = s.intervals) : t.armed = s.armed := by
  simp [Node.armed, h1, h2]

/-- From a latched state a status request either leaves the latch set or shows
a status whose text contains 'active'. -/
theorem setNodeStatusTo_latch (s : Node) (v : String) (h : s.timeoutOccurred = true) :
    (setNodeStatusTo s v).timeoutOccurred = true ∨
      (searchFound "active" v = true ∧ (setNodeStatusTo s v).statusLog = s.statusLog ++ [v]) := by
  by_cases hp : v = "polling"
  · left
    rw [hp, setNodeStatusTo_polling_latched s h]
    exact h
  · by_cases ha : searchFound "active" v = true
    · right
      exact ⟨ha, setNodeStatusTo_statusLog_plain s v hp⟩
    · left
      rw [setNodeStatusTo_plain s v hp (by simpa using ha)]
      exact h

theorem setModbusError_latch (s : Node) (err : Option ModbusError)
    (h : s.timeoutOccurred = true) :
    (setModbusError s err).1.timeoutOccurred = true ∨
      ∃ v, searchFound "active" v = true ∧
        (setModbusError s err).1.statusLog = s.statusLog ++ [v] := by
  unfold setModbusError
  cases err with
  | none => exact Or.inl h
  | some e =>
    simp only []
    split_ifs
    · left
      rw [setNodeStatusTo_plain _ "timeout" (by decide) (by decide)]
    · left
      rw [setNodeStatusTo_plain _ "not ready to read" (by decide) (by decide)]
      exact h
    · left
      rw [setNodeStatusTo_plain _ "reconnect" (by decide) (by decide)]
      exact h
    · rcases setNodeStatusTo_latch s ("error: " ++ e.json) h with hl | hr
      · exact Or.inl hl
      · exact Or.inr ⟨_, hr⟩

theorem modbusPollingRead_timeoutOccurred (cfg : Config) (s : Node) (client : Bool) :
    (modbusPollingRead cfg s client).timeoutOccurred = s.timeoutOccurred := by
  unfold modbusPollingRead
  split_ifs <;>
    simp [emit, setNodeStatusTo_timeoutOccurred_plain s "waiting" (by decide) (by decide)]

theorem onModbusConnect_timeoutOccurred (s : Node) :
    (onModbusConnect s).timeoutOccurred = s.timeoutOccurred := by
  simp only [onModbusConnect]
  rw [setNodeStatusTo_plain _ "connected" (by decide) (by decide)]
  cases s.timerID <;> rfl

/-- From a latched state every event either leaves the latch set or shows a
status whose text contains 'active'. -/
theorem step_latch (cfg : Config) (s : Node) (e : Event) (h : s.timeoutOccurred = true) :
    (step cfg s e).timeoutOccurred = true ∨
      ∃ v, searchFound "active" v = true ∧ (step cfg s e).statusLog = s.statusLog ++ [v] := by
  cases e with
  | mbinit =>
    left
    exact (setNodeStatusTo_timeoutOccurred_plain s "initialize" (by decide) (by decide)).trans h
  | mbconnected => exact Or.inl ((onModbusConnect_timeoutOccurred s).trans h)
  | mbactive =>
    right
    exact ⟨"active", by decide, setNodeStatusTo_statusLog_plain s "active" (by decide)⟩
  | mberror d => exact Or.inl ((onModbusError_fields s).2.2.1.trans h)
  | mbclosed => exact Or.inl ((onModbusClose_fields s).2.2.1.trans h)
  | input client msg => exact Or.inl ((onInput_frame s client msg).2.2.2.1.trans h)
  | tick handle client =>
    left
    simp only [step]
    split
    · exact (modbusPollingRead_timeoutOccurred cfg s client).trans h
    · exact h
  | readDoneDigital data => exact Or.inl h
  | readDoneAnalog data => exact Or.inl h
  | readError err => exact setModbusError_latch s err h
  | writeError err => exact setModbusError_latch s err h
  | close => exact Or.inl ((onClose_fields s).2.2.1.trans h)

/-- After `clearInterval(timerID)` the handle that was in `timerID` is not armed. -/
theorem clearInterval_not_mem (s : Node) (t : Nat) (h : s.timerID = some t) :
    t ∉ (clearInterval s s.timerID).intervals := by
  simp [clearInterval, h]

/-- On a message whose byte and bit are integers the untyped handler emits
what `onInput` emits. -/
theorem onInput_eq_untyped (s : Node) (client : Bool) (r : String) (b i : Int) (v : Scalar) :
    onInput s client ⟨some ⟨r, b, i, v⟩⟩ =
      match onInputUntyped client (some ⟨r, JsValue.int b, JsValue.int i, v⟩) with
      | none => s
      | some w =>
        match w.address with
        | JsValue.int a =>
          emit s (Emitted.writeModbus
            { value := w.value, unitid := w.unitid, fc := w.fc, address := a,
              quantity := w.quantity })
        | _ => s := by
  simp only [onInput, onInputUntyped, JsValue.lt, JsValue.gt, JsValue.toNumber, JsValue.mul,
    JsValue.add]
  split_ifs <;> simp_all

/-! ## The response transformer -/

/-- C1, as the claim states it, fails: with one digital output and the analog
response `[7]` the first entry of the batch is `null` itself, not an event
whose payload is `null`. -/
theorem analog_first_entry_is_not_null_payload_event :
    (onModbusReadDoneAnalog ⟨"plc", 1, 1, 0, 0⟩ construct [Scalar.num 7]).sent =
        [[none, some ⟨Scalar.num 7⟩]] ∧
      (analogBatch ⟨"plc", 1, 1, 0, 0⟩ [Scalar.num 7])[0]? ≠ some (some ⟨Scalar.null⟩) := by
  constructor
  · simp [onModbusReadDoneAnalog, send, analogBatch_eq, construct, setNodeStatusTo]
  · simp [analogBatch_eq]

/-- C1 (amended): for digitalCount d ≥ 0, analogCount a ≥ 0 and a raw analog
response of length a, `onModbusReadDoneAnalog` sends exactly one batch, it has
d + a entries, and each of its first d entries is `null` (no event at all). -/
theorem analog_batch_length_and_null_entries (cfg : Config) (s : Node) (data : List Scalar)
    (hd : 0 ≤ cfg.digitaloutputs) (_ha : 0 ≤ cfg.analogoutputs)
    (hlen : (data.length : Int) = cfg.analogoutputs) :
    (onModbusReadDoneAnalog cfg s data).sent = s.sent ++ [analogBatch cfg data] ∧
      ((analogBatch cfg data).length : Int) = cfg.digitaloutputs + cfg.analogoutputs ∧
      ∀ k : Nat, (k : Int) < cfg.digitaloutputs → (analogBatch cfg data)[k]? = some none := by
  refine ⟨rfl, ?_, ?_⟩
  · rw [analogBatch_eq]
    simp only [List.length_append, List.length_replicate, List.length_map]
    omega
  · intro k hk
    have hk2 : k < cfg.digitaloutputs.toNat := by omega
    rw [analogBatch_eq, List.getElem?_append_left (by simpa using hk2)]
    simp [List.getElem?_replicate, hk2]

theorem analog_batch_length_and_null_entries_witness :
    (onModbusReadDoneAnalog ⟨"plc", 2, 1, 0, 0⟩ construct [Scalar.num 7]).sent =
        construct.sent ++ [analogBatch ⟨"plc", 2, 1, 0, 0⟩ [Scalar.num 7]] ∧
      ((analogBatch ⟨"plc", 2, 1, 0, 0⟩ [Scalar.num 7]).length : Int) = 2 + 1 ∧
      ∀ k : Nat, (k : Int) < 2 →
        (analogBatch ⟨"plc", 2, 1, 0, 0⟩ [Scalar.num 7])[k]? = some none :=
  analog_batch_length_and_null_entries ⟨"plc", 2, 1, 0, 0⟩ construct [Scalar.num 7]
    (by decide) (by decide) (by decide)

/-- C2: for a raw digital response whose length is digitalCount d,
`onModbusReadDoneDigital` sends exactly one batch, it has d events, and event k
carries element k of the response, for every k < d. -/
theorem digital_batch_matches_response (cfg : Config) (s : Node) (data : List Scalar)
    (hlen : (data.length : Int) = cfg.digitaloutputs) :
    (onModbusReadDoneDigital cfg s data).sent = s.sent ++ [digitalBatch cfg data] ∧
      ((digitalBatch cfg data).length : Int) = cfg.digitaloutputs ∧
      ∀ (k : Nat) (hk : k < data.length),
        (digitalBatch cfg data)[k]? = some (some { payload := data.get ⟨k, hk⟩ }) := by
  have hd : 0 ≤ cfg.digitaloutputs := by omega
  have hn : cfg.digitaloutputs.toNat = data.length := by omega
  have hb : digitalBatch cfg data = data.map (fun x => some { payload := x }) := by
    rw [digitalBatch_eq cfg data hd, hn]
    exact List.take_of_length_le (by simp)
  refine ⟨rfl, ?_, ?_⟩
  · rw [hb]; simpa using hlen
  · intro k hk
    rw [hb]
    simp [hk]

theorem digital_batch_matches_response_witness :
    (onModbusReadDoneDigital ⟨"plc", 2, 0, 0, 0⟩ construct
        [Scalar.bool true, Scalar.bool false]).sent =
        construct.sent ++
          [digitalBatch ⟨"plc", 2, 0, 0, 0⟩ [Scalar.bool true, Scalar.bool false]] ∧
      ((digitalBatch ⟨"plc", 2, 0, 0, 0⟩ [Scalar.bool true, Scalar.bool false]).length : Int)
        = 2 ∧
      ∀ (k : Nat) (hk : k < [Scalar.bool true, Scalar.bool false].length),
        (digitalBatch ⟨"plc", 2, 0, 0, 0⟩ [Scalar.bool true, Scalar.bool false])[k]? =
          some (some { payload := [Scalar.bool true, Scalar.bool false].get ⟨k, hk⟩ }) :=
  digital_batch_matches_response ⟨"plc", 2, 0, 0, 0⟩ construct
    [Scalar.bool true, Scalar.bool false] (by decide)

/-! ## The write translator -/

/-- C3: while the client is live, an intent with byte in [0,99] and bit in
[0,7] makes the input handler emit exactly one write request, with unit 1,
quantity 1 and the value unchanged: function code 5 and address byte * 8 + bit
for register "X", function code 6 and address byte for register "W"; so
X/byte 3/bit 5 is written at address 29 and W/byte 7 at address 7. -/
theorem input_emits_one_write_request (s : Node) (p : InputPayload)
    (hb0 : 0 ≤ p.byte) (hb1 : p.byte ≤ 99) (hi0 : 0 ≤ p.bit) (hi1 : p.bit ≤ 7) :
    (p.register = "X" →
        onInput s true ⟨some p⟩ =
          { s with emitted := s.emitted ++ [Emitted.writeModbus
              { value := p.value, unitid := 1, fc := 5,
                address := p.byte * 8 + p.bit, quantity := 1 }] }) ∧
      (p.register = "W" →
        onInput s true ⟨some p⟩ =
          { s with emitted := s.emitted ++ [Emitted.writeModbus
              { value := p.value, unitid := 1, fc := 6,
                address := p.byte, quantity := 1 }] }) ∧
      onInput s true ⟨some ⟨"X", 3, 5, p.value⟩⟩ =
          { s with emitted := s.emitted ++ [Emitted.writeModbus
              { value := p.value, unitid := 1, fc := 5, address := 29, quantity := 1 }] } ∧
      onInput s true ⟨some ⟨"W", 7, p.bit, p.value⟩⟩ =
          { s with emitted := s.emitted ++ [Emitted.writeModbus
              { value := p.value, unitid := 1, fc := 6, address := 7, quantity := 1 }] } := by
  have hb0n : ¬ p.byte < 0 := by omega
  have hb1n : ¬ 99 < p.byte := by omega
  have hi0n : ¬ p.bit < 0 := by omega
  have hi1n : ¬ 7 < p.bit := by omega
  refine ⟨?_, ?_, ?_, ?_⟩
  · intro hx
    simp [onInput, emit, hx, hb0n, hb1n, hi0n, hi1n]
  · intro hw
    simp [onInput, emit, hw, hb0n, hb1n, hi0n, hi1n]
  · simp [onInput, emit]
  · simp [onInput, emit, hi0n, hi1n]

theorem input_emits_one_write_request_witness :
    onInput construct true ⟨some ⟨"X", 3, 5, Scalar.bool true⟩⟩ =
      { construct with emitted := construct.emitted ++ [Emitted.writeModbus
          { value := Scalar.bool true, unitid := 1, fc := 5, address := 29, quantity := 1 }] } :=
  (input_emits_one_write_request construct ⟨"X", 3, 5, Scalar.bool true⟩
    (by decide) (by decide) (by decide) (by decide)).1 rfl

/-- C4: an intent that fails validation (register neither "X" nor "W", or
byte outside [0,99], or bit outside [0,7], the bit being checked for register
"W" too) leaves the node as it was: no write request, no status notification,
latch and timer unchanged. -/
theorem input_invalid_is_dropped (s : Node) (client : Bool) (p : InputPayload)
    (h : ¬ (p.register = "X" ∨ p.register = "W") ∨ p.byte < 0 ∨ 99 < p.byte ∨
      p.bit < 0 ∨ 7 < p.bit) :
    onInput s client ⟨some p⟩ = s := by
  unfold onInput
  simp only []
  by_cases hr : ((p.register != "" && p.register == "X") || p.register == "W") = true
  · have hreg : p.register = "X" ∨ p.register = "W" := by
      simp at hr
      rcases hr with hx | hw
      · exact Or.inl hx.2
      · exact Or.inr hw
    cases client
    · simp
    · rcases h with h | h | h | h | h
      · exact absurd hreg h
      · simp [h]
      · simp [h]
      · simp [h]
      · simp [h]
  · simp [hr]

theorem input_invalid_is_dropped_witness :
    onInput construct true ⟨some ⟨"X", 100, 0, Scalar.bool true⟩⟩ = construct ∧
      onInput construct true ⟨some ⟨"W", 7, 8, Scalar.num 1⟩⟩ = construct ∧
      onInput construct true ⟨some ⟨"Q", 0, 0, Scalar.num 1⟩⟩ = construct :=
  ⟨input_invalid_is_dropped construct true ⟨"X", 100, 0, Scalar.bool true⟩
      (Or.inr (Or.inr (Or.inl (by decide)))),
    input_invalid_is_dropped construct true ⟨"W", 7, 8, Scalar.num 1⟩
      (Or.inr (Or.inr (Or.inr (Or.inr (by decide))))),
    input_invalid_is_dropped construct true ⟨"Q", 0, 0, Scalar.num 1⟩
      (Or.inl (by decide))⟩

/-- C5: while the adapter reports no live client, every incoming message
(valid or not, with or without a payload) leaves the node as it was: no write
request, no status notification, no change of state. -/
theorem input_without_client_is_dropped (s : Node) (msg : InputMsg) :
    onInput s false msg = s := by
  unfold onInput
  cases msg.payload with
  | none => rfl
  | some p => simp

/-! ## The timeout latch -/

/-- C6: classifying a read or write error whose message is 'Timed out' shows
the status 'timeout' and sets the latch; and in every state with the latch set a
request for the status 'polling' changes nothing: no notification, same status,
latch still set. -/
theorem timeout_latches_and_polling_is_suppressed (s : Node) (e : ModbusError)
    (h : e.message = "Timed out") :
    onModbusReadError s (some e) =
        { s with timeoutOccurred := true, statusLog := s.statusLog ++ ["timeout"] } ∧
      onModbusWriteError s (some e) = onModbusReadError s (some e) ∧
      (onModbusReadError s (some e)).status = some "timeout" ∧
      (onModbusReadError s (some e)).timeoutOccurred = true ∧
      (setNodeStatusTo (onModbusReadError s (some e)) "polling").status = some "timeout" ∧
      ∀ t : Node, t.timeoutOccurred = true → setNodeStatusTo t "polling" = t := by
  have h1 : onModbusReadError s (some e) =
      { s with timeoutOccurred := true, statusLog := s.statusLog ++ ["timeout"] } := by
    simp only [onModbusReadError, setModbusError, h, beq_self_eq_true, if_true]
    exact setNodeStatusTo_plain _ _ (by decide) (by decide)
  refine ⟨h1, rfl, ?_, ?_, ?_, setNodeStatusTo_polling_latched⟩
  · rw [h1]; exact status_after_append _ _
  · rw [h1]
  · rw [setNodeStatusTo_polling_latched _ (by rw [h1]), h1]
    exact status_after_append _ _

theorem timeout_latches_and_polling_is_suppressed_witness :
    (onModbusReadError construct (some ⟨"Timed out", "ETIMEDOUT"⟩)).status = some "timeout" ∧
      (onModbusReadError construct (some ⟨"Timed out", "ETIMEDOUT"⟩)).timeoutOccurred = true :=
  ⟨(timeout_latches_and_polling_is_suppressed construct ⟨"Timed out", "ETIMEDOUT"⟩ rfl).2.2.1,
    (timeout_latches_and_polling_is_suppressed construct ⟨"Timed out", "ETIMEDOUT"⟩ rfl).2.2.2.1⟩

/-- C7, as the claim states it, fails: in the state reached by a connect and
a timed-out read, a completed digital read and a completed analog read both
leave the latch set, and a following request for 'polling' is still suppressed. -/
theorem read_success_leaves_latch_set_example :
    onModbusReadError (onModbusConnect construct) (some ⟨"Timed out", "ETIMEDOUT"⟩) =
        { timerID := some 0, timeoutOccurred := true, intervals := [0], nextHandle := 1,
          statusLog := ["waiting", "connected", "timeout"], sent := [], emitted := [] } ∧
      (onModbusReadDoneDigital ⟨"plc", 1, 1, 0, 0⟩
          { timerID := some 0, timeoutOccurred := true, intervals := [0], nextHandle := 1,
            statusLog := ["waiting", "connected", "timeout"], sent := [], emitted := [] }
          [Scalar.bool true]).timeoutOccurred = true ∧
      (onModbusReadDoneAnalog ⟨"plc", 1, 1, 0, 0⟩
          { timerID := some 0, timeoutOccurred := true, intervals := [0], nextHandle := 1,
            statusLog := ["waiting", "connected", "timeout"], sent := [], emitted := [] }
          [Scalar.num 7]).timeoutOccurred = true ∧
      (setNodeStatusTo
          (onModbusReadDoneDigital ⟨"plc", 1, 1, 0, 0⟩
            { timerID := some 0, timeoutOccurred := true, intervals := [0], nextHandle := 1,
              statusLog := ["waiting", "connected", "timeout"], sent := [], emitted := [] }
            [Scalar.bool true])
          "polling").statusLog = ["waiting", "connected", "timeout"] := by
  refine ⟨?_, rfl, rfl, ?_⟩
  · simp only [onModbusReadError, setModbusError, beq_self_eq_true, if_true]
    rw [setNodeStatusTo_plain _ _ (by decide) (by decide)]
    simp only [onModbusConnect, construct]
    rw [setNodeStatusTo_plain _ _ (by decide) (by decide),
      setNodeStatusTo_plain _ _ (by decide) (by decide)]
    rfl
  · rw [setNodeStatusTo_polling_latched _ rfl]
    rfl

/-- C7 (amended): in every state with the latch set, a completed read (digital
or analog) leaves the latch set and shows no status, so a following request for
the status 'polling' is still suppressed; from such a state the latch is cleared
only by showing a status whose text contains 'active': a status request or an
event after which the latch is clear has shown such a status, and the adapter's
'activity' event is one that clears it. -/
theorem read_success_leaves_latch_set (cfg : Config) (s : Node) (data : List Scalar)
    (h : s.timeoutOccurred = true) :
    (onModbusReadDoneDigital cfg s data).timeoutOccurred = true ∧
      (onModbusReadDoneAnalog cfg s data).timeoutOccurred = true ∧
      (onModbusReadDoneDigital cfg s data).statusLog = s.statusLog ∧
      (onModbusReadDoneAnalog cfg s data).statusLog = s.statusLog ∧
      setNodeStatusTo (onModbusReadDoneDigital cfg s data) "polling" =
        onModbusReadDoneDigital cfg s data ∧
      setNodeStatusTo (onModbusReadDoneAnalog cfg s data) "polling" =
        onModbusReadDoneAnalog cfg s data ∧
      (∀ v : String, (setNodeStatusTo s v).timeoutOccurred = false →
        searchFound "active" v = true ∧
          (setNodeStatusTo s v).statusLog = s.statusLog ++ [v]) ∧
      (∀ e : Event, (step cfg s e).timeoutOccurred = false →
        ∃ v, searchFound "active" v = true ∧
          (step cfg s e).statusLog = s.statusLog ++ [v]) ∧
      (step cfg s Event.mbactive).timeoutOccurred = false := by
  refine ⟨h, h, rfl, rfl, setNodeStatusTo_polling_latched _ h,
    setNodeStatusTo_polling_latched _ h, ?_, ?_, ?_⟩
  · intro v hv
    rcases setNodeStatusTo_latch s v h with hl | hr
    · rw [hv] at hl; exact absurd hl (by decide)
    · exact hr
  · intro e he
    rcases step_latch cfg s e h with hl | hr
    · rw [he] at hl; exact absurd hl (by decide)
    · exact hr
  · show (setNodeStatusTo s "active").timeoutOccurred = false
    rw [setNodeStatusTo_active s "active" (by decide) (by decide)]

theorem read_success_leaves_latch_set_witness :
    (onModbusReadDoneDigital ⟨"plc", 1, 1, 0, 0⟩
        { timerID := some 0, timeoutOccurred := true, intervals := [0], nextHandle := 1,
          statusLog := ["waiting", "connected", "timeout"], sent := [], emitted := [] }
        [Scalar.bool true]).timeoutOccurred = true :=
  (read_success_leaves_latch_set ⟨"plc", 1, 1, 0, 0⟩
    { timerID := some 0, timeoutOccurred := true, intervals := [0], nextHandle := 1,
      statusLog := ["waiting", "connected", "timeout"], sent := [], emitted := [] }
    [Scalar.bool true] rfl).1

/-- C8: in every state, latched or not, the adapter 'activity' event shows
exactly one status, 'active', and leaves the latch cleared; nothing else changes. -/
theorem activity_sets_active_and_clears_latch (s : Node) :
    onModbusActive s =
        { s with timeoutOccurred := false, statusLog := s.statusLog ++ ["active"] } ∧
      (onModbusActive s).status = some "active" ∧
      (onModbusActive s).statusLog = s.statusLog ++ ["active"] ∧
      (onModbusActive s).timeoutOccurred = false := by
  have h1 : onModbusActive s =
      { s with timeoutOccurred := false, statusLog := s.statusLog ++ ["active"] } :=
    setNodeStatusTo_active s "active" (by decide) (by decide)
  refine ⟨h1, ?_, ?_, ?_⟩
  · rw [h1]; simp [Node.status]
  · rw [h1]
  · rw [h1]

/-! ## The error classifier -/

/-- C9: classifying a read or write error whose message is 'Port Not Open'
emits exactly one reconnect request and shows the status 'reconnect';
classifying an error with any other message, or no error, emits nothing. -/
theorem port_not_open_requests_one_reconnect (s : Node) (e : ModbusError) :
    (e.message = "Port Not Open" →
        onModbusReadError s (some e) =
            { s with statusLog := s.statusLog ++ ["reconnect"],
                     emitted := s.emitted ++ [Emitted.reconnect] } ∧
          (onModbusReadError s (some e)).emitted = s.emitted ++ [Emitted.reconnect] ∧
          (onModbusReadError s (some e)).status = some "reconnect") ∧
      (e.message ≠ "Port Not Open" → (onModbusReadError s (some e)).emitted = s.emitted) ∧
      (onModbusReadError s none).emitted = s.emitted ∧
      onModbusWriteError s (some e) = onModbusReadError s (some e) ∧
      onModbusWriteError s none = onModbusReadError s none := by
  refine ⟨?_, ?_, rfl, rfl, rfl⟩
  · intro h
    have h1 : onModbusReadError s (some e) =
        { s with statusLog := s.statusLog ++ ["reconnect"],
                 emitted := s.emitted ++ [Emitted.reconnect] } := by
      simp only [onModbusReadError, setModbusError, h]
      rw [if_neg (by decide), if_neg (by decide), if_pos (by decide)]
      simp only [emit]
      rw [setNodeStatusTo_plain _ _ (by decide) (by decide)]
    refine ⟨h1, ?_, ?_⟩
    · rw [h1]
    · rw [h1]; simp [Node.status]
  · intro h
    simp only [onModbusReadError, setModbusError]
    split
    · exact setNodeStatusTo_emitted _ _
    · split
      · exact setNodeStatusTo_emitted _ _
      · rw [if_neg (by simpa using h)]
        exact setNodeStatusTo_emitted _ _

theorem port_not_open_requests_one_reconnect_witness :
    (onModbusReadError construct (some ⟨"Port Not Open", "ECONNREFUSED"⟩)).emitted =
        construct.emitted ++ [Emitted.reconnect] ∧
      (onModbusReadError construct (some ⟨"Port Not Open", "ECONNREFUSED"⟩)).status =
        some "reconnect" ∧
      (onModbusReadError construct (some ⟨"Timed out", "ETIMEDOUT"⟩)).emitted =
        construct.emitted :=
  ⟨((port_not_open_requests_one_reconnect construct ⟨"Port Not Open", "ECONNREFUSED"⟩).1
      rfl).2.1,
    ((port_not_open_requests_one_reconnect construct ⟨"Port Not Open", "ECONNREFUSED"⟩).1
      rfl).2.2,
    (port_not_open_requests_one_reconnect construct ⟨"Timed out", "ETIMEDOUT"⟩).2.1
      (by decide)⟩

/-- An error of no known message whose text, after 'error: ', does not contain
'active' is shown as an error status and changes nothing else. -/
theorem unclassified_error_without_active_text (s : Node) (e : ModbusError)
    (h1 : e.message ≠ "Timed out") (h2 : e.message ≠ "FSM Not Ready To Read")
    (h3 : e.message ≠ "Port Not Open")
    (ha : searchFound "active" ("error: " ++ e.json) = false) :
    setModbusError s (some e) =
      ({ s with statusLog := s.statusLog ++ ["error: " ++ e.json] }, false) := by
  have hp : "error: " ++ e.json ≠ "polling" := by
    intro hc
    have hd := congrArg String.data hc
    rw [String.data_append] at hd
    have hl := congrArg (List.take 1) hd
    simp at hl
  simp only [setModbusError]
  rw [if_neg (by simpa using h1), if_neg (by simpa using h2), if_neg (by simpa using h3),
    setNodeStatusTo_plain _ _ hp ha]

/-- C10 fails on the code: in the latched state reached by a connect and a
timed-out read, a read error with the unclassified message 'inactive', whose
JSON text therefore contains 'active', is shown as an error status but clears
the latch; the timer and the emitted requests are as before. -/
theorem unclassified_error_with_active_text_clears_latch :
    onModbusReadError
        { timerID := some 0, timeoutOccurred := true, intervals := [0], nextHandle := 1,
          statusLog := ["waiting", "connected", "timeout"], sent := [], emitted := [] }
        (some ⟨"inactive", "\x7b\"message\":\"inactive\"\x7d"⟩) =
      { timerID := some 0, timeoutOccurred := false, intervals := [0], nextHandle := 1,
        statusLog := ["waiting", "connected", "timeout",
          "error: \x7b\"message\":\"inactive\"\x7d"],
        sent := [], emitted := [] } := by
  simp only [onModbusReadError, setModbusError]
  rw [if_neg (by decide), if_neg (by decide), if_neg (by decide),
    setNodeStatusTo_active _ _ (by decide) (by decide)]
  rfl

/-- C11: classifying an absent error is a no-op: the node is returned as it
was (no status notification, same status, latch and timer, no reconnect
request) and `setModbusError` returns false. -/
theorem absent_error_is_noop (s : Node) :
    setModbusError s none = (s, false) ∧
      onModbusReadError s none = s ∧ onModbusWriteError s none = s :=
  ⟨rfl, rfl, rfl⟩

/-! ## The polling scheduler -/

/-- C12: after every finite sequence of events from construction, the armed
timers are none (and `timerID` is `null`) or exactly the one held in `timerID`;
two 'connected' events in a row leave exactly one armed timer; and after two
stops in a row (adapter 'closed' or local shutdown, in any combination)
`timerID`, the armed timers, the latch and the status shown are what they are
after one stop. -/
theorem at_most_one_timer (cfg : Config) (events : List Event) :
    ((run cfg construct events).timerID = none ∧ (run cfg construct events).intervals = [] ∨
        ∃ h, (run cfg construct events).timerID = some h ∧
          (run cfg construct events).intervals = [h]) ∧
      (∃ h, (run cfg construct (events ++ [Event.mbconnected, Event.mbconnected])).timerID
            = some h ∧
          (run cfg construct (events ++ [Event.mbconnected, Event.mbconnected])).intervals
            = [h]) ∧
      ∀ stop1 stop2 : Event, (stop1 = Event.mbclosed ∨ stop1 = Event.close) →
        (stop2 = Event.mbclosed ∨ stop2 = Event.close) →
        (run cfg construct (events ++ [stop1, stop2])).timerID =
            (run cfg construct (events ++ [stop1])).timerID ∧
          (run cfg construct (events ++ [stop1, stop2])).intervals =
            (run cfg construct (events ++ [stop1])).intervals ∧
          (run cfg construct (events ++ [stop1, stop2])).timeoutOccurred =
            (run cfg construct (events ++ [stop1])).timeoutOccurred ∧
          (run cfg construct (events ++ [stop1, stop2])).status =
            (run cfg construct (events ++ [stop1])).status := by
  have inv : ∀ evs, (run cfg construct evs).intervals = (run cfg construct evs).timerID.toList :=
    fun evs => run_oneTimer cfg evs construct construct_oneTimer
  have shape : ∀ evs, ((run cfg construct evs).timerID = none ∧
      (run cfg construct evs).intervals = [] ∨
        ∃ h, (run cfg construct evs).timerID = some h ∧
          (run cfg construct evs).intervals = [h]) := by
    intro evs
    have h := inv evs
    cases ht : (run cfg construct evs).timerID with
    | none => left; rw [ht] at h; exact ⟨rfl, h⟩
    | some t => right; rw [ht] at h; exact ⟨t, rfl, h⟩
  refine ⟨shape events, ?_, ?_⟩
  · rcases shape (events ++ [Event.mbconnected, Event.mbconnected]) with h | h
    · exfalso
      have hc := h.1
      rw [run_append] at hc
      simp [run, step, onModbusConnect, setNodeStatusTo_timerID] at hc
    · exact h
  · intro stop1 stop2 h1 h2
    have hsplit : events ++ [stop1, stop2] = (events ++ [stop1]) ++ [stop2] := by simp
    rw [hsplit, run_append cfg construct (events ++ [stop1]) [stop2]]
    generalize hs : run cfg construct (events ++ [stop1]) = s
    have hst : s.timerID = none ∧ s.status = some "closed" := by
      rw [← hs, run_append]
      rcases h1 with h1 | h1 <;> subst h1
      · exact ⟨(onModbusClose_fields _).1, (onModbusClose_fields _).2.2.2.1⟩
      · exact ⟨(onClose_fields _).1, (onClose_fields _).2.2.2.1⟩
    rcases h2 with h2 | h2 <;> subst h2
    · have h := onModbusClose_fields s
      refine ⟨h.1.trans hst.1.symm, ?_, h.2.2.1, h.2.2.2.1.trans hst.2.symm⟩
      show (onModbusClose s).intervals = s.intervals
      rw [h.2.1, hst.1]; rfl
    · have h := onClose_fields s
      refine ⟨h.1.trans hst.1.symm, ?_, h.2.2.1, h.2.2.2.1.trans hst.2.symm⟩
      show (onClose s).intervals = s.intervals
      rw [h.2.1, hst.1]; rfl

theorem at_most_one_timer_witness :
    (run ⟨"plc", 1, 1, 0, 0⟩ construct ([Event.mbconnected] ++ [Event.mbclosed, Event.close])).timerID
        = (run ⟨"plc", 1, 1, 0, 0⟩ construct ([Event.mbconnected] ++ [Event.mbclosed])).timerID ∧
      (run ⟨"plc", 1, 1, 0, 0⟩ construct
          ([Event.mbconnected] ++ [Event.mbclosed, Event.close])).intervals
        = (run ⟨"plc", 1, 1, 0, 0⟩ construct ([Event.mbconnected] ++ [Event.mbclosed])).intervals :=
  ⟨((at_most_one_timer ⟨"plc", 1, 1, 0, 0⟩ [Event.mbconnected]).2.2 Event.mbclosed Event.close
      (Or.inl rfl) (Or.inr rfl)).1,
    ((at_most_one_timer ⟨"plc", 1, 1, 0, 0⟩ [Event.mbconnected]).2.2 Event.mbclosed Event.close
      (Or.inl rfl) (Or.inr rfl)).2.1⟩

/-- C13: after an adapter 'closed' event or a local shutdown no timer is
armed and `timerID` is `null`; through every later sequence of events without a
'connected' event that stays so, no tick fires and no read request is issued;
and in every state a read completion or a read error leaves `timerID` and the
armed timers as they are. -/
theorem stop_disarms_timer (cfg : Config) (events later : List Event) (stop : Event)
    (hstop : stop = Event.mbclosed ∨ stop = Event.close)
    (hlater : Event.mbconnected ∉ later) :
    (run cfg construct (events ++ [stop])).timerID = none ∧
      (run cfg construct (events ++ [stop])).intervals = [] ∧
      (run cfg (run cfg construct (events ++ [stop])) later).timerID = none ∧
      (run cfg (run cfg construct (events ++ [stop])) later).intervals = [] ∧
      (run cfg (run cfg construct (events ++ [stop])) later).readRequests =
        (run cfg construct (events ++ [stop])).readRequests ∧
      (∀ (handle : Nat) (client : Bool),
        step cfg (run cfg (run cfg construct (events ++ [stop])) later)
            (Event.tick handle client) =
          run cfg (run cfg construct (events ++ [stop])) later) ∧
      ∀ (t : Node) (data : List Scalar) (err : Option ModbusError),
        (onModbusReadDoneDigital cfg t data).timerID = t.timerID ∧
          (onModbusReadDoneDigital cfg t data).intervals = t.intervals ∧
          (onModbusReadDoneAnalog cfg t data).timerID = t.timerID ∧
          (onModbusReadDoneAnalog cfg t data).intervals = t.intervals ∧
          (onModbusReadError t err).timerID = t.timerID ∧
          (onModbusReadError t err).intervals = t.intervals := by
  have hinv : (run cfg construct (events ++ [stop])).oneTimer :=
    run_oneTimer cfg _ construct construct_oneTimer
  have ht : (run cfg construct (events ++ [stop])).timerID = none := by
    rw [run_append]
    rcases hstop with h | h <;> subst h
    · exact (onModbusClose_fields _).1
    · exact (onClose_fields _).1
  have hi : (run cfg construct (events ++ [stop])).intervals = [] := by
    have h := hinv
    unfold Node.oneTimer at h
    rw [h, ht]; rfl
  have hl := run_stopped cfg later _ ht hi hlater
  refine ⟨ht, hi, hl.1, hl.2.1, hl.2.2, ?_, ?_⟩
  · intro handle client
    simp [step, hl.2.1]
  · intro t data err
    exact ⟨rfl, rfl, rfl, rfl, setModbusError_timerID t err, setModbusError_intervals t err⟩

theorem stop_disarms_timer_witness :
    (run ⟨"plc", 1, 1, 0, 0⟩ construct ([Event.mbconnected] ++ [Event.mbclosed])).timerID = none ∧
      (run ⟨"plc", 1, 1, 0, 0⟩
          (run ⟨"plc", 1, 1, 0, 0⟩ construct ([Event.mbconnected] ++ [Event.mbclosed]))
          [Event.tick 0 true, Event.readDoneDigital [Scalar.bool true]]).readRequests =
        (run ⟨"plc", 1, 1, 0, 0⟩ construct
          ([Event.mbconnected] ++ [Event.mbclosed])).readRequests :=
  ⟨(stop_disarms_timer ⟨"plc", 1, 1, 0, 0⟩ [Event.mbconnected]
      [Event.tick 0 true, Event.readDoneDigital [Scalar.bool true]] Event.mbclosed
      (Or.inl rfl) (by decide)).1,
    (stop_disarms_timer ⟨"plc", 1, 1, 0, 0⟩ [Event.mbconnected]
      [Event.tick 0 true, Event.readDoneDigital [Scalar.bool true]] Event.mbclosed
      (Or.inl rfl) (by decide)).2.2.2.2.1⟩

/-- C14: a tick without a live client shows the status 'waiting' and issues
no request; a tick with a live client issues exactly a coil read (unit 1,
function code 1, address digitalOffset, quantity digitalCount) when
digitalCount > 0, followed by a holding-register read (unit 1, function code 3,
address analogOffset, quantity analogCount) when analogCount > 0, and nothing else. -/
theorem tick_issues_configured_reads (cfg : Config) (s : Node) :
    modbusPollingRead cfg s false = { s with statusLog := s.statusLog ++ ["waiting"] } ∧
      (modbusPollingRead cfg s false).status = some "waiting" ∧
      (modbusPollingRead cfg s false).emitted = s.emitted ∧
      modbusPollingRead cfg s true =
        { s with emitted := s.emitted ++
            ((if cfg.digitaloutputs > 0 then
                [Emitted.readModbus
                  { topic := "polling", fromName := cfg.name,
                    payload := { unitid := 1, fc := 1, address := cfg.digitaloutputoffset,
                                 quantity := cfg.digitaloutputs } }
                  ReadKind.digital]
              else []) ++
             (if cfg.analogoutputs > 0 then
                [Emitted.readModbus
                  { topic := "polling", fromName := cfg.name,
                    payload := { unitid := 1, fc := 3, address := cfg.analogoutputoffset,
                                 quantity := cfg.analogoutputs } }
                  ReadKind.analog]
              else [])) } := by
  have h1 : modbusPollingRead cfg s false =
      { s with statusLog := s.statusLog ++ ["waiting"] } := by
    simp only [modbusPollingRead]
    exact setNodeStatusTo_plain s "waiting" (by decide) (by decide)
  refine ⟨h1, ?_, ?_, ?_⟩
  · rw [h1]; exact status_after_append _ _
  · rw [h1]
  · simp only [modbusPollingRead]
    rw [if_neg (by decide)]
    split_ifs <;> simp [emit]

/-! ## The connection state machine -/

/-- C15, as the claim states it, fails: after an adapter 'closed' event the
status is 'closed', yet a following 'connected' event shows 'connected' and arms
a timer, and a following init, activity or error event or a timed-out read shows
another status. -/
theorem closed_is_not_terminal_example :
    (run ⟨"plc", 1, 1, 0, 0⟩ construct [Event.mbclosed]).status = some "closed" ∧
      (run ⟨"plc", 1, 1, 0, 0⟩ construct [Event.mbclosed, Event.mbconnected]).status =
        some "connected" ∧
      (run ⟨"plc", 1, 1, 0, 0⟩ construct [Event.mbclosed, Event.mbconnected]).timerID =
        some 0 ∧
      (run ⟨"plc", 1, 1, 0, 0⟩ construct [Event.mbclosed, Event.mbconnected]).intervals =
        [0] ∧
      (run ⟨"plc", 1, 1, 0, 0⟩ construct [Event.close, Event.mbinit]).status =
        some "initialize" ∧
      (run ⟨"plc", 1, 1, 0, 0⟩ construct [Event.close, Event.mbactive]).status =
        some "active" ∧
      (run ⟨"plc", 1, 1, 0, 0⟩ construct [Event.close, Event.mberror "lost"]).status =
        some "failure" ∧
      (run ⟨"plc", 1, 1, 0, 0⟩ construct
          [Event.close, Event.readError (some ⟨"Timed out", "ETIMEDOUT"⟩)]).status =
        some "timeout" := by
  decide

/-- C15 (amended): once the status is 'closed' and no timer is armed, every
later event other than 'connected' leaves the timer unarmed, and every later
event other than the adapter's init, connected, activity and error events and a
read or write error leaves the status 'closed'; a 'connected' event arms a timer
again and shows 'connected'. -/
theorem closed_kept_by_quiet_events (cfg : Config) (s : Node) (e : Event)
    (hs : s.status = some "closed") (ht : s.timerID = none) (hi : s.intervals = []) :
    (e ≠ Event.mbconnected →
        (step cfg s e).timerID = none ∧ (step cfg s e).intervals = []) ∧
      (e ≠ Event.mbinit → e ≠ Event.mbconnected → e ≠ Event.mbactive →
        (∀ d, e ≠ Event.mberror d) → (∀ x, e ≠ Event.readError (some x)) →
        (∀ x, e ≠ Event.writeError (some x)) → (step cfg s e).status = some "closed") ∧
      (step cfg s Event.mbconnected).timerID = some s.nextHandle ∧
      (step cfg s Event.mbconnected).intervals = [s.nextHandle] ∧
      (step cfg s Event.mbconnected).status = some "connected" := by
  refine ⟨fun he => ⟨(step_stopped cfg s e ht hi he).1, (step_stopped cfg s e ht hi he).2.1⟩,
    ?_, ?_, ?_, ?_⟩
  · intro h1 h2 h3 h4 h5 h6
    cases e with
    | mbinit => exact absurd rfl h1
    | mbconnected => exact absurd rfl h2
    | mbactive => exact absurd rfl h3
    | mberror d => exact absurd rfl (h4 d)
    | mbclosed => exact (onModbusClose_fields s).2.2.2.1
    | input client msg =>
      simp only [step, Node.status, (onInput_frame s client msg).2.2.1]
      exact hs
    | tick handle client => simpa [step, hi] using hs
    | readDoneDigital data => exact hs
    | readDoneAnalog data => exact hs
    | readError err =>
      cases err with
      | none => exact hs
      | some x => exact absurd rfl (h5 x)
    | writeError err =>
      cases err with
      | none => exact hs
      | some x => exact absurd rfl (h6 x)
    | close => exact (onClose_fields s).2.2.2.1
  · simp [step, onModbusConnect, setNodeStatusTo_timerID, setInterval, ht, clearInterval]
  · simp [step, onModbusConnect, setNodeStatusTo_intervals, setInterval, ht, hi, clearInterval]
  · exact setNodeStatusTo_status_plain _ _ (by decide)

theorem closed_kept_by_quiet_events_witness :
    (step ⟨"plc", 1, 1, 0, 0⟩ (onModbusClose construct)
        (Event.readDoneDigital [Scalar.bool true])).status = some "closed" :=
  (closed_kept_by_quiet_events ⟨"plc", 1, 1, 0, 0⟩ (onModbusClose construct)
    (Event.readDoneDigital [Scalar.bool true]) (by decide) (by decide) (by decide)).2.1
    (by decide) (by decide) (by decide) (fun _ => by simp) (fun _ => by simp) (fun _ => by simp)

/-- C16, as the claim states it, fails: after a 'connected' event a timer is
armed, and the adapter's 'error' event that follows leaves none armed. -/
theorem error_event_disarms_timer_example :
    (run ⟨"plc", 1, 1, 0, 0⟩ construct [Event.mbconnected]).armed = true ∧
      (run ⟨"plc", 1, 1, 0, 0⟩ construct [Event.mbconnected, Event.mberror "lost"]).armed
        = false ∧
      (run ⟨"plc", 1, 1, 0, 0⟩ construct [Event.mbconnected, Event.mberror "lost"]).timerID
        = none ∧
      (run ⟨"plc", 1, 1, 0, 0⟩ construct [Event.mbconnected, Event.mberror "lost"]).intervals
        = [] := by
  decide

/-- C16 (amended): in every state with an armed timer, every event other than
a local shutdown, an adapter 'closed' event and an adapter 'error' event leaves a
timer armed; this includes read and write errors of every classification. The
adapter's 'error' event clears the timer: afterwards `timerID` is `null`, no
timer is armed, and the handle that was in `timerID` is no longer among the
armed timers. -/
theorem read_write_errors_keep_timer (cfg : Config) (s : Node) (e : Event)
    (ha : s.armed = true) (h1 : e ≠ Event.close) (h2 : e ≠ Event.mbclosed)
    (h3 : ∀ d, e ≠ Event.mberror d) :
    (step cfg s e).armed = true ∧
      (∀ err, (onModbusReadError s err).armed = true ∧
        (onModbusWriteError s err).armed = true) ∧
      ∀ d, (step cfg s (Event.mberror d)).timerID = none ∧
        (step cfg s (Event.mberror d)).armed = false ∧
        (step cfg s (Event.mberror d)).intervals = (clearInterval s s.timerID).intervals ∧
        ∀ t, s.timerID = some t → t ∉ (step cfg s (Event.mberror d)).intervals := by
  have herr : ∀ err, (onModbusReadError s err).armed = true := fun err =>
    (armed_congr s _ (setModbusError_timerID s err) (setModbusError_intervals s err)).trans ha
  have hstop : ∀ d, (step cfg s (Event.mberror d)).timerID = none ∧
      (step cfg s (Event.mberror d)).armed = false ∧
      (step cfg s (Event.mberror d)).intervals = (clearInterval s s.timerID).intervals ∧
      ∀ t, s.timerID = some t → t ∉ (step cfg s (Event.mberror d)).intervals := by
    intro d
    have hf := onModbusError_fields s
    refine ⟨hf.1, ?_, hf.2.1, ?_⟩
    · show (onModbusError s).armed = false
      simp [Node.armed, hf.1]
    · intro t ht
      show t ∉ (onModbusError s).intervals
      rw [hf.2.1]
      exact clearInterval_not_mem s t ht
  refine ⟨?_, fun err => ⟨herr err, herr err⟩, hstop⟩
  cases e with
  | mbinit =>
    exact (armed_congr s _ (setNodeStatusTo_timerID _ _) (setNodeStatusTo_intervals _ _)).trans ha
  | mbconnected =>
    simp [step, onModbusConnect, Node.armed, setNodeStatusTo_timerID,
      setNodeStatusTo_intervals, setInterval]
  | mbactive =>
    exact (armed_congr s _ (setNodeStatusTo_timerID _ _) (setNodeStatusTo_intervals _ _)).trans ha
  | mberror d => exact absurd rfl (h3 d)
  | mbclosed => exact absurd rfl h2
  | input client msg =>
    exact (armed_congr s _ (onInput_frame s client msg).1 (onInput_frame s client msg).2.1).trans ha
  | tick handle client =>
    simp only [step]
    split
    · exact (armed_congr s _ (modbusPollingRead_timerID _ _ _)
        (modbusPollingRead_intervals _ _ _)).trans ha
    · exact ha
  | readDoneDigital data => exact ha
  | readDoneAnalog data => exact ha
  | readError err => exact herr err
  | writeError err => exact herr err
  | close => exact absurd rfl h1

theorem read_write_errors_keep_timer_witness :
    (step ⟨"plc", 1, 1, 0, 0⟩ (onModbusConnect construct)
        (Event.readError (some ⟨"Port Not Open", "ECONNREFUSED"⟩))).armed = true :=
  (read_write_errors_keep_timer ⟨"plc", 1, 1, 0, 0⟩ (onModbusConnect construct)
    (Event.readError (some ⟨"Port Not Open", "ECONNREFUSED"⟩)) (by decide) (by decide)
    (by decide) (fun _ => by simp)).1

/-- C17, as the claim states it, fails: for the details 'Port Not Open' and
'Timed out' the adapter's 'error' event shows 'failure', requests no reconnect
and does not set the latch, while the classifier shows 'reconnect' with one
reconnect request, and 'timeout' with the latch set. -/
theorem error_event_bypasses_classifier_example :
    (step ⟨"plc", 1, 1, 0, 0⟩ construct (Event.mberror "Port Not Open")).status =
        some "failure" ∧
      (step ⟨"plc", 1, 1, 0, 0⟩ construct (Event.mberror "Port Not Open")).emitted = [] ∧
      (setModbusError construct (some ⟨"Port Not Open", "ECONNREFUSED"⟩)).1.status =
        some "reconnect" ∧
      (setModbusError construct (some ⟨"Port Not Open", "ECONNREFUSED"⟩)).1.emitted =
        [Emitted.reconnect] ∧
      (step ⟨"plc", 1, 1, 0, 0⟩ construct (Event.mberror "Timed out")).status =
        some "failure" ∧
      (step ⟨"plc", 1, 1, 0, 0⟩ construct (Event.mberror "Timed out")).timeoutOccurred =
        false ∧
      (setModbusError construct (some ⟨"Timed out", "ETIMEDOUT"⟩)).1.status =
        some "timeout" ∧
      (setModbusError construct (some ⟨"Timed out", "ETIMEDOUT"⟩)).1.timeoutOccurred =
        true := by
  decide

/-- C17 (amended): the adapter's 'error' event does not go through the error
classifier: for every error detail it shows the one status 'failure', leaves the
latch as it was, requests no reconnect, and clears the timer: `timerID` becomes
`null`, the armed timers are those left by `clearInterval(timerID)`, so the
handle that was in `timerID` is not armed any more, and in a state with at most
one timer none is armed afterwards and a later tick does nothing. -/
theorem error_event_shows_failure (cfg : Config) (s : Node) (detail : String) :
    (step cfg s (Event.mberror detail)).status = some "failure" ∧
      (step cfg s (Event.mberror detail)).statusLog = s.statusLog ++ ["failure"] ∧
      (step cfg s (Event.mberror detail)).timeoutOccurred = s.timeoutOccurred ∧
      (step cfg s (Event.mberror detail)).emitted = s.emitted ∧
      (step cfg s (Event.mberror detail)).timerID = none ∧
      (step cfg s (Event.mberror detail)).intervals = (clearInterval s s.timerID).intervals ∧
      (∀ t, s.timerID = some t → t ∉ (step cfg s (Event.mberror detail)).intervals) ∧
      (s.oneTimer →
        (step cfg s (Event.mberror detail)).intervals = [] ∧
          ∀ (handle : Nat) (client : Bool),
            step cfg (step cfg s (Event.mberror detail)) (Event.tick handle client) =
              step cfg s (Event.mberror detail)) := by
  have hf := onModbusError_fields s
  have hi : (step cfg s (Event.mberror detail)).intervals =
      (clearInterval s s.timerID).intervals := hf.2.1
  refine ⟨hf.2.2.2.1, hf.2.2.2.2.2, hf.2.2.1, hf.2.2.2.2.1, hf.1, hi, ?_, ?_⟩
  · intro t ht
    rw [hi]
    exact clearInterval_not_mem s t ht
  · intro hone
    have he : (step cfg s (Event.mberror detail)).intervals = [] := by
      rw [hi]; exact clearInterval_oneTimer s hone
    refine ⟨he, ?_⟩
    intro handle client
    generalize step cfg s (Event.mberror detail) = t at he
    simp [step, he]

theorem error_event_shows_failure_witness :
    (step ⟨"plc", 1, 1, 0, 0⟩ (onModbusConnect construct)
        (Event.mberror "Port Not Open")).intervals = [] ∧
      step ⟨"plc", 1, 1, 0, 0⟩
          (step ⟨"plc", 1, 1, 0, 0⟩ (onModbusConnect construct) (Event.mberror "Port Not Open"))
          (Event.tick 0 true) =
        step ⟨"plc", 1, 1, 0, 0⟩ (onModbusConnect construct) (Event.mberror "Port Not Open") :=
  ⟨((error_event_shows_failure ⟨"plc", 1, 1, 0, 0⟩ (onModbusConnect construct)
      "Port Not Open").2.2.2.2.2.2.2 (by decide)).1,
    ((error_event_shows_failure ⟨"plc", 1, 1, 0, 0⟩ (onModbusConnect construct)
      "Port Not Open").2.2.2.2.2.2.2 (by decide)).2 0 true⟩

/-! ## The response transformer: lengths and positions -/

/-- C18, as the claim states it, fails: with three digital outputs and the
response `[true]` the batch sent has one event; it is not padded to three. -/
theorem short_digital_response_is_not_padded_example :
    (onModbusReadDoneDigital ⟨"plc", 3, 0, 0, 0⟩ construct [Scalar.bool true]).sent =
        [[some ⟨Scalar.bool true⟩]] ∧
      (digitalBatch ⟨"plc", 3, 0, 0, 0⟩ [Scalar.bool true]).length = 1 := by
  decide

/-- C18 (amended): for digitalCount d ≥ 0 and a raw digital response of any
length, the batch sent by `onModbusReadDoneDigital` is the events of the first
min(d, length) response elements: a longer response is truncated to exactly d
events, a shorter one is sent whole and not padded. -/
theorem digital_batch_is_truncated_not_padded (cfg : Config) (s : Node) (data : List Scalar)
    (hd : 0 ≤ cfg.digitaloutputs) :
    (onModbusReadDoneDigital cfg s data).sent = s.sent ++ [digitalBatch cfg data] ∧
      digitalBatch cfg data =
        (data.take cfg.digitaloutputs.toNat).map (fun x => some { payload := x }) ∧
      (digitalBatch cfg data).length = min cfg.digitaloutputs.toNat data.length ∧
      (cfg.digitaloutputs ≤ data.length →
        ((digitalBatch cfg data).length : Int) = cfg.digitaloutputs) ∧
      ((data.length : Int) < cfg.digitaloutputs →
        (digitalBatch cfg data).length = data.length) := by
  have hb := digitalBatch_eq cfg data hd
  have hl : (digitalBatch cfg data).length = min cfg.digitaloutputs.toNat data.length := by
    rw [hb]; simp
  refine ⟨rfl, ?_, hl, ?_, ?_⟩
  · rw [hb, List.map_take]
  · intro h; rw [hl]; omega
  · intro h; rw [hl]; omega

theorem digital_batch_is_truncated_not_padded_witness :
    ((digitalBatch ⟨"plc", 1, 0, 0, 0⟩ [Scalar.bool true, Scalar.bool false]).length : Int)
      = 1 :=
  (digital_batch_is_truncated_not_padded ⟨"plc", 1, 0, 0, 0⟩ construct
    [Scalar.bool true, Scalar.bool false] (by decide)).2.2.2.1 (by decide)

/-- C19: for digitalCount d ≥ 0 and every raw analog response, the batch sent
by `onModbusReadDoneAnalog` carries the analog values in their order from index
d on: for every k below the response length, entry d + k is the event whose
payload is element k, and the batch ends after them (its length is d plus the
response length). -/
theorem analog_values_start_at_digital_count (cfg : Config) (s : Node) (data : List Scalar)
    (hd : 0 ≤ cfg.digitaloutputs) :
    (onModbusReadDoneAnalog cfg s data).sent = s.sent ++ [analogBatch cfg data] ∧
      (∀ (k : Nat) (hk : k < data.length),
        (analogBatch cfg data)[cfg.digitaloutputs.toNat + k]? =
          some (some { payload := data.get ⟨k, hk⟩ })) ∧
      ((analogBatch cfg data).length : Int) = cfg.digitaloutputs + data.length := by
  refine ⟨rfl, ?_, ?_⟩
  · intro k hk
    rw [analogBatch_eq, List.getElem?_append_right (by simp)]
    simp [hk]
  · rw [analogBatch_eq]
    simp only [List.length_append, List.length_replicate, List.length_map]
    omega

theorem analog_values_start_at_digital_count_witness :
    ((analogBatch ⟨"plc", 2, 2, 0, 0⟩ [Scalar.num 5, Scalar.num 6]).length : Int) =
      2 + [Scalar.num 5, Scalar.num 6].length :=
  (analog_values_start_at_digital_count ⟨"plc", 2, 2, 0, 0⟩ construct
    [Scalar.num 5, Scalar.num 6] (by decide)).2.2

/-! ## The write translator: addresses -/

/-- On messages whose byte and bit are integers: on bytes in [0,99] and bits in
[0,7] the coil address byte * 8 + bit is injective, so two accepted "X" intents
that make the input handler emit the same request have the same byte and bit;
and the handler emits nothing or exactly one write request, whose address is in
[0,799] when its function code is 5 and in [0,99] when its function code is 6. -/
theorem integer_intents_injective_and_bounded (s : Node) (client : Bool) (msg : InputMsg)
    (byte1 byte2 bit1 bit2 : Int) (v : Scalar)
    (hb1 : 0 ≤ byte1 ∧ byte1 ≤ 99) (hb2 : 0 ≤ byte2 ∧ byte2 ≤ 99)
    (hi1 : 0 ≤ bit1 ∧ bit1 ≤ 7) (hi2 : 0 ≤ bit2 ∧ bit2 ≤ 7) :
    (byte1 * 8 + bit1 = byte2 * 8 + bit2 → byte1 = byte2 ∧ bit1 = bit2) ∧
      (onInput s true ⟨some ⟨"X", byte1, bit1, v⟩⟩ =
          onInput s true ⟨some ⟨"X", byte2, bit2, v⟩⟩ →
        byte1 = byte2 ∧ bit1 = bit2) ∧
      (onInput s client msg = s ∨
        ∃ w : WritePayload, onInput s client msg = emit s (Emitted.writeModbus w) ∧
          (w.fc = 5 ∨ w.fc = 6) ∧
          (w.fc = 5 → 0 ≤ w.address ∧ w.address ≤ 799) ∧
          (w.fc = 6 → 0 ≤ w.address ∧ w.address ≤ 99)) := by
  have hinj : byte1 * 8 + bit1 = byte2 * 8 + bit2 → byte1 = byte2 ∧ bit1 = bit2 := by
    intro h
    constructor <;> omega
  refine ⟨hinj, ?_, ?_⟩
  · intro h
    have n1 : ¬ byte1 < 0 := by omega
    have n2 : ¬ 99 < byte1 := by omega
    have n3 : ¬ bit1 < 0 := by omega
    have n4 : ¬ 7 < bit1 := by omega
    have m1 : ¬ byte2 < 0 := by omega
    have m2 : ¬ 99 < byte2 := by omega
    have m3 : ¬ bit2 < 0 := by omega
    have m4 : ¬ 7 < bit2 := by omega
    simp [onInput, emit, n1, n2, n3, n4, m1, m2, m3, m4] at h
    exact hinj h
  · unfold onInput
    cases msg.payload with
    | none => exact Or.inl rfl
    | some p =>
      simp only []
      split_ifs with c1 c2 c3 c4 cx
      · exact Or.inl rfl
      · exact Or.inl rfl
      · exact Or.inl rfl
      · exact Or.inl rfl
      · right
        simp only [Bool.or_eq_true, decide_eq_true_eq, not_or, not_lt] at c3 c4
        exact ⟨_, rfl, Or.inl rfl, fun _ => ⟨by show 0 ≤ p.byte * 8 + p.bit; omega,
          by show p.byte * 8 + p.bit ≤ 799; omega⟩, fun h => absurd h (by simp)⟩
      · right
        simp only [Bool.or_eq_true, decide_eq_true_eq, not_or, not_lt] at c3 c4
        exact ⟨_, rfl, Or.inr rfl, fun h => absurd h (by simp),
          fun _ => ⟨by show 0 ≤ p.byte; omega, by show p.byte ≤ 99; omega⟩⟩

/-- C20 fails on the code: with a live client, a message for register "X"
that has bit 1 and no byte passes both range checks and is emitted with function
code 5 and the address `NaN`, and a message for register "W" that has no byte is
emitted with function code 6 and the address `undefined`; neither address is a
number in the claimed range. -/
theorem missing_byte_passes_range_checks :
    onInputUntyped true (some ⟨"X", JsValue.undefined, JsValue.int 1, Scalar.bool true⟩) =
        some { value := Scalar.bool true, unitid := 1, fc := 5, address := JsValue.nan,
               quantity := 1 } ∧
      onInputUntyped true (some ⟨"W", JsValue.undefined, JsValue.int 0, Scalar.num 5⟩) =
        some { value := Scalar.num 5, unitid := 1, fc := 6, address := JsValue.undefined,
               quantity := 1 } ∧
      (∀ a : Int, JsValue.nan ≠ JsValue.int a) ∧
      (∀ a : Int, JsValue.undefined ≠ JsValue.int a) := by
  refine ⟨by decide, by decide, ?_, ?_⟩ <;> intro a h <;> cases h

end OpenPLC
